import Mathlib

/-
Verification of the Aurora inference runtime (src/inference/runtime/app/main.py).

The service is a single-process FastAPI app holding two globals, a model
reference and a metadata dict, plus Prometheus counters.  We embed that
state as an explicit record, the filesystem the loaders read as an explicit
record, and each route handler as a pure state transformer.  Exceptions
raised by Python code are embedded as explicit error results; in particular
the try/except structure of the predict handler is kept, because the
catch-all `except Exception` there also catches the HTTPException values
raised inside the try block.
-/

set_option autoImplicit false

namespace Aurora

/-- JSON metadata dictionary fields, each optional because `dict.get` is used
throughout the source.  Mirrors the keys read from metadata.json:
model_name, version, algorithm, r2_score, trained_at, feature_count.
Floats carry no arithmetic in the source, so scores are embedded as `Rat`. -/
structure ModelMetadata where
  model_name : Option String
  version : Option String
  algorithm : Option String
  r2_score : Option Rat
  trained_at : Option String
  feature_count : Option Nat
deriving Repr, DecidableEq

/-- The empty metadata dictionary (all keys absent). -/
def ModelMetadata.empty : ModelMetadata :=
  ⟨none, none, none, none, none, none⟩

/-- The loaded predictive model: an opaque handle whose predict operation maps
a matrix of inputs to predictions, and may raise (embedded as `Except`). -/
structure PredModel where
  predict : List (List Rat) → Except String (List Rat)

/-- Global mutable state of the process: `model` (None until loaded),
`model_metadata` (a dict, `none` here standing for the empty dict `{}`,
`some md` for a non-empty dict whose recognised keys are the fields of `md`),
and the two labelled request counters that the claims mention
(REQUEST_COUNT with status="error" and status="success"). -/
structure AppState where
  model : Option PredModel
  metadata : Option ModelMetadata
  errorCount : Nat
  successCount : Nat

/-- Result of reading a file: missing, present but failing to
parse/deserialize, or successfully read. -/
inductive FileRead (α : Type) where
  | missing
  | unreadable
  | ok (a : α)
deriving Repr, DecidableEq

/-- The filesystem the loaders consult: the metadata JSON file (whose parsed
content is a possibly-empty dict) and the pickled model file. -/
structure Disk where
  metadataFile : FileRead (Option ModelMetadata)
  modelFile : FileRead PredModel

/-- Embedding of load_model_metadata (main.py lines 70-82).  If the metadata
file exists, a successful parse replaces the global dict and a parse failure
resets it to `{}` (the except branch); if the file is missing, the else
branch only logs a warning and the global dict is left unchanged.  The
Python function never raises: both failure branches are caught. -/
def load_model_metadata (d : Disk) (cur : Option ModelMetadata) : Option ModelMetadata :=
  match d.metadataFile with
  | .ok md => md
  | .unreadable => none
  | .missing => cur

/-- Embedding of load_model (main.py lines 84-120).  Runs the metadata load,
then: if the model file is missing, returns leaving the model unchanged
(only gauges are set); if joblib.load raises, the exception is caught and the
model is left unchanged; on success the global model is replaced.  The
function never raises.  Gauge updates carry no claim and are not tracked. -/
def load_model (d : Disk) (s : AppState) : AppState :=
  let s1 : AppState := { s with metadata := load_model_metadata d s.metadata }
  match d.modelFile with
  | .missing => s1
  | .unreadable => s1
  | .ok m => { s1 with model := some m }

/-- A handler response: success (HTTP 200 with a typed body) or an
HTTPException-style failure with a status code.  Detail strings carry no
claim and are omitted. -/
inductive HResp (β : Type) where
  | success (body : β)
  | failure (code : Nat)
deriving Repr, DecidableEq

/-- Whether a response is a failure (non-200). -/
def HResp.isFailure {β : Type} : HResp β → Bool
  | .success _ => false
  | .failure _ => true

/-- Embedding of verify_api_key (main.py lines 65-67): truthiness of the
API_KEY env value (`None` and the empty string are falsy in Python). -/
def str_truthy : Option String → Bool
  | none => false
  | some s => s ≠ ""

/-- Embedding of verify_api_key (main.py lines 65-67).  `cfg` is the API_KEY
environment value, `key` the supplied key (both possibly absent).  Returns
the HTTP status of the raised HTTPException, or `none` when the check
passes: it raises 401 exactly when API_KEY is truthy and the supplied key
differs from it. -/
def verify_api_key (cfg key : Option String) : Option Nat :=
  if str_truthy cfg ∧ key ≠ cfg then some 401 else none

/-- Dependency wiring of `Depends(verify_api_key)`: the handler body runs
only when the key check passes; otherwise the request fails with the
exception's status and the state is untouched. -/
def withAuth {β : Type} (cfg key : Option String)
    (handler : AppState → AppState × HResp β) (s : AppState) :
    AppState × HResp β :=
  match verify_api_key cfg key with
  | some code => (s, HResp.failure code)
  | none => handler s

/-- Extra fields the health body carries when the metadata dict is
non-empty: model_name, model_version (the dict's version key) and r2_score,
each read with `dict.get` and hence possibly null. -/
structure HealthMeta where
  model_name : Option String
  model_version : Option String
  r2_score : Option Rat
deriving Repr, DecidableEq

/-- Body of the GET /health response (main.py lines 123-139). -/
structure HealthBody where
  status : String
  model_loaded : Bool
  model_path : String
  metadata_loaded : Bool
  extra : Option HealthMeta
deriving Repr, DecidableEq

/-- Embedding of the health handler (main.py lines 123-139).  No auth, no
exception can be raised, no state is mutated: it always responds 200 with
the status dict, adding the metadata fields exactly when the metadata dict
is non-empty. -/
def health (modelPath : String) (s : AppState) : AppState × HResp HealthBody :=
  (s, HResp.success
    { status := if s.model.isSome then "ok" else "degraded"
      model_loaded := s.model.isSome
      model_path := modelPath
      metadata_loaded := s.metadata.isSome
      extra := s.metadata.map fun md =>
        ⟨md.model_name, md.version, md.r2_score⟩ })

/-- The typed ModelInfo response object (main.py lines 56-62): every field
is required and non-nullable in the pydantic class. -/
structure ModelInfo where
  name : String
  version : String
  algorithm : String
  r2_score : Rat
  trained_at : String
  features : Nat
deriving Repr, DecidableEq

/-- Embedding of the model_info handler body (main.py lines 141-153), after
auth.  Empty metadata raises 404.  Otherwise ModelInfo is constructed from
`dict.get` calls: r2_score and features have explicit defaults (0.0 and 0),
but name, version, algorithm and trained_at do not, so when any of those
keys is absent the constructor receives None for a non-nullable `str` field
and pydantic raises a ValidationError, which no handler code catches; the
framework turns that unhandled exception into a 500 response.  No state is
mutated on any path. -/
def model_info (s : AppState) : AppState × HResp ModelInfo :=
  match s.metadata with
  | none => (s, HResp.failure 404)
  | some md =>
    match md.model_name, md.version, md.algorithm, md.trained_at with
    | some n, some v, some a, some t =>
      (s, HResp.success ⟨n, v, a, md.r2_score.getD 0, t, md.feature_count.getD 0⟩)
    | _, _, _, _ => (s, HResp.failure 500)

/-- `model_metadata.get('feature_count', 8)` (main.py line 170): 8 when the
dict is empty or the key is absent. -/
def expected_features (metadata : Option ModelMetadata) : Nat :=
  (metadata.bind ModelMetadata.feature_count).getD 8

/-- An exception escaping the try block of the predict handler: an
HTTPException with its status code, or any other exception (e.g. one raised
by model.predict). -/
inductive PyExc where
  | http (code : Nat)
  | other (msg : String)
deriving Repr, DecidableEq

/-- Embedding of the try block of the predict handler (main.py lines
165-188), given a loaded model `m`.  Raises HTTPException(400) on empty
inputs; computes the expected feature count; raises HTTPException(400) at
the first row of the wrong length; otherwise calls model.predict, whose own
exception propagates, and on success increments the success counter and
returns the predictions.  The Bool records whether model.predict was
invoked.  Latency observation carries no claim and is not tracked. -/
def predict_try (s : AppState) (m : PredModel) (inputs : List (List Rat)) :
    Except PyExc (AppState × List Rat) × Bool :=
  if inputs.isEmpty then
    (Except.error (PyExc.http 400), false)
  else
    let expected := expected_features s.metadata
    match inputs.findIdx? (fun row => row.length != expected) with
    | some _ => (Except.error (PyExc.http 400), false)
    | none =>
      match m.predict inputs with
      | .error e => (Except.error (PyExc.other e), true)
      | .ok preds => (Except.ok ({ s with successCount := s.successCount + 1 }, preds), true)

/-- Outcome of a predict request: the post-state, the response, and whether
the model's predict operation was invoked. -/
structure PredictOutcome where
  state : AppState
  resp : HResp (List Rat)
  invoked : Bool

/-- Embedding of the predict handler (main.py lines 155-194), after auth.
If no model is loaded, the error counter is incremented and HTTPException
(503) is raised before the try block.  Otherwise the try block runs; any
exception it raises — including the HTTPException(400) values raised for
empty inputs or wrong-length rows, since FastAPI's HTTPException is a
subclass of Exception — is caught by the catch-all `except Exception`
clause, which increments the error counter and re-raises
HTTPException(500, str(e)).  So the 400s written in the source are never
the response status: validation failures surface as 500. -/
def predict (s : AppState) (inputs : List (List Rat)) : PredictOutcome :=
  match s.model with
  | none =>
    ⟨{ s with errorCount := s.errorCount + 1 }, HResp.failure 503, false⟩
  | some m =>
    match predict_try s m inputs with
    | (.ok (s2, preds), inv) => ⟨s2, HResp.success preds, inv⟩
    | (.error _, inv) =>
      ⟨{ s with errorCount := s.errorCount + 1 }, HResp.failure 500, inv⟩

/-- Embedding of the reload_model handler (main.py lines 201-217), after
auth.  Snapshots the model reference, clears it, and re-runs load_model
(which never raises).  If a model is then present, responds 200; otherwise
the old reference is restored and HTTPException(500) is raised — that raise
happens inside the try block, so the except clause catches it, assigns the
old model again and re-raises a 500.  Metadata is whatever load_model left:
it is not rolled back.  Neither request counter is touched on any path. -/
def reload_model (d : Disk) (s : AppState) : AppState × HResp String :=
  let old_model := s.model
  let s1 : AppState := { s with model := none }
  let s2 := load_model d s1
  match s2.model with
  | some _ => (s2, HResp.success "reloaded")
  | none => ({ s2 with model := old_model }, HResp.failure 500)

end Aurora

namespace Aurora

/-- A concrete model used to instantiate theorems: predicts 0 for each row. -/
def sampleModel : PredModel :=
  ⟨fun rows => Except.ok (rows.map fun _ => (0 : Rat))⟩

/-- A concrete fully-populated metadata dictionary. -/
def sampleMeta : ModelMetadata :=
  ⟨some "california-housing", some "1.0", some "linear", some (83 / 100),
   some "2024-01-01", some 8⟩

/-- State with model and full metadata loaded. -/
def sFull : AppState := ⟨some sampleModel, some sampleMeta, 0, 0⟩

/-- State with neither model nor metadata loaded, with nonzero counters. -/
def sNoMeta : AppState := ⟨none, none, 3, 4⟩

/-- State with a model loaded but empty metadata. -/
def sModelOnly : AppState := ⟨some sampleModel, none, 5, 6⟩

/-- State with a model and a non-empty metadata dict whose only key is
model_name. -/
def sPartialMeta : AppState :=
  ⟨some sampleModel, some ⟨some "m", none, none, none, none, none⟩, 0, 0⟩

/-- Disk where both the metadata file and the model file are missing. -/
def dMissing : Disk := ⟨FileRead.missing, FileRead.missing⟩

/-- Disk with a fresh, parseable metadata file but no model file. -/
def dNewMeta : Disk :=
  ⟨FileRead.ok (some ⟨some "new", some "2.0", none, none, none, some 8⟩),
   FileRead.missing⟩

end Aurora

namespace Aurora

/-- C3: for every POST /predict request made while no model is loaded, the
response has status 503 and the error-status request counter is incremented
by exactly 1 before the response is produced. -/
theorem predict_no_model_503 (s : AppState) (inputs : List (List Rat))
    (h : s.model = none) :
    (predict s inputs).resp = HResp.failure 503 ∧
    (predict s inputs).state.errorCount = s.errorCount + 1 := by
  simp [predict, h]

/-- Witness for predict_no_model_503 at a concrete empty state and input. -/
theorem predict_no_model_503_witness :
    (predict sNoMeta [[1, 2]]).resp = HResp.failure 503 ∧
    (predict sNoMeta [[1, 2]]).state.errorCount = sNoMeta.errorCount + 1 :=
  predict_no_model_503 sNoMeta [[1, 2]] rfl

/-- C10: while no model is loaded, /predict responds 503 regardless of the
request body — the model-absence check precedes input validation, so even an
empty inputs list or rows of the wrong length never reach the 400-producing
validation code, and the model is never invoked. -/
theorem predict_no_model_precedes_validation (s : AppState)
    (inputs : List (List Rat)) (h : s.model = none) :
    (predict s inputs).resp = HResp.failure 503 ∧
    (predict s inputs).resp ≠ HResp.failure 400 ∧
    (predict s inputs).invoked = false := by
  simp [predict, h]

/-- Witness for predict_no_model_precedes_validation: both an empty inputs
list and a wrong-length row still give 503. -/
theorem predict_no_model_precedes_validation_witness :
    ((predict sNoMeta []).resp = HResp.failure 503 ∧
     (predict sNoMeta []).resp ≠ HResp.failure 400 ∧
     (predict sNoMeta []).invoked = false) ∧
    ((predict sNoMeta [[1]]).resp = HResp.failure 503 ∧
     (predict sNoMeta [[1]]).resp ≠ HResp.failure 400 ∧
     (predict sNoMeta [[1]]).invoked = false) :=
  ⟨predict_no_model_precedes_validation sNoMeta [] rfl,
   predict_no_model_precedes_validation sNoMeta [[1]] rfl⟩

/-- C1: the claim says invalid inputs give status 400 while a model is
loaded, and indeed the source raises HTTPException(status_code=400) for
them — but those raises sit inside the try block whose catch-all
`except Exception` converts every exception to HTTPException(500).  So at a
state with a model loaded and empty metadata (expected feature count 8),
both an empty inputs list and a 3-element row produce a 500 response, not
400; the model's predict operation is still never invoked. -/
theorem predict_validation_returns_500_not_400 :
    (predict sModelOnly []).resp = HResp.failure 500 ∧
    (predict sModelOnly []).invoked = false ∧
    (predict sModelOnly [[1, 2, 3]]).resp = HResp.failure 500 ∧
    (predict sModelOnly [[1, 2, 3]]).invoked = false := by
  refine ⟨rfl, rfl, ?_, ?_⟩ <;> rfl

/-- C8: if no API key secret is configured (API_KEY unset or empty, i.e.
falsy), every request passes the key check; if a secret is configured, a
key equal to it passes and any other key (missing or mismatched) raises
401. -/
theorem verify_api_key_spec (cfg key : Option String) :
    (str_truthy cfg = false → verify_api_key cfg key = none) ∧
    (str_truthy cfg = true → key = cfg → verify_api_key cfg key = none) ∧
    (str_truthy cfg = true → key ≠ cfg → verify_api_key cfg key = some 401) := by
  refine ⟨fun hf => ?_, fun _ hk => ?_, fun ht hk => ?_⟩ <;>
    simp [verify_api_key, *]

/-- Witness for verify_api_key_spec: unconfigured passes any key; with
API_KEY set to secret, the matching key passes while a missing key and a
wrong key get 401. -/
theorem verify_api_key_spec_witness :
    verify_api_key none (some "anything") = none ∧
    verify_api_key (some "secret") (some "secret") = none ∧
    verify_api_key (some "secret") none = some 401 ∧
    verify_api_key (some "secret") (some "wrong") = some 401 :=
  ⟨(verify_api_key_spec none (some "anything")).1 rfl,
   (verify_api_key_spec (some "secret") (some "secret")).2.1 rfl rfl,
   (verify_api_key_spec (some "secret") none).2.2 rfl (by simp),
   (verify_api_key_spec (some "secret") (some "wrong")).2.2 rfl (by simp)⟩

end Aurora

namespace Aurora

/-- C2: if the fresh load fails (model file missing or failing to
deserialize) and a model was previously loaded, reload restores the
previously loaded model reference in the holder and responds 500 — the
holder is never left empty after a failed reload if it was previously
loaded. -/
theorem reload_rollback (d : Disk) (s : AppState) (m : PredModel)
    (hm : s.model = some m)
    (hf : d.modelFile = FileRead.missing ∨ d.modelFile = FileRead.unreadable) :
    (reload_model d s).1.model = some m ∧
    (reload_model d s).2 = HResp.failure 500 := by
  rcases hf with hf | hf <;> simp [reload_model, load_model, hf, hm]

/-- Witness for reload_rollback: with the model file deleted, reload leaves
the previously loaded model in place and returns 500. -/
theorem reload_rollback_witness :
    (reload_model dMissing sFull).1.model = some sampleModel ∧
    (reload_model dMissing sFull).2 = HResp.failure 500 :=
  reload_rollback dMissing sFull sampleModel rfl (Or.inl rfl)

/-- C9: on a failed reload only the model reference is rolled back; the
metadata state is exactly what the failed attempt's metadata load produced
from the new filesystem contents, not its pre-reload value. -/
theorem reload_metadata_not_rolled_back (d : Disk) (s : AppState)
    (hf : (reload_model d s).2 = HResp.failure 500) :
    (reload_model d s).1.metadata = load_model_metadata d s.metadata ∧
    (reload_model d s).1.model = s.model := by
  rcases hd : d.modelFile with _ | _ | m <;>
    simp_all [reload_model, load_model]

/-- Witness for reload_metadata_not_rolled_back: a failed reload (model file
missing) with a fresh parseable metadata file leaves the new metadata in
place — which here differs from the pre-reload metadata. -/
theorem reload_metadata_not_rolled_back_witness :
    ((reload_model dNewMeta sFull).1.metadata =
        load_model_metadata dNewMeta sFull.metadata ∧
      (reload_model dNewMeta sFull).1.model = sFull.model) ∧
    load_model_metadata dNewMeta sFull.metadata ≠ sFull.metadata :=
  ⟨reload_metadata_not_rolled_back dNewMeta sFull rfl, by decide⟩

/-- C4 counterexample: the claim says a missing metadata file leaves the
metadata state empty, but the missing-file branch of load_model_metadata
only logs and leaves the state unchanged — at a state whose metadata dict
is non-empty, the result is still that non-empty dict. -/
theorem load_metadata_missing_file_not_cleared :
    load_model_metadata dMissing (some sampleMeta) = some sampleMeta ∧
    (some sampleMeta : Option ModelMetadata) ≠ none := by
  exact ⟨rfl, by simp⟩

/-- C4 amended: on a missing metadata file the loader leaves the metadata
state unchanged (hence empty only if it was already empty, as at first
startup); on a parse error it resets the state to empty; on a successful
read it replaces the state with the parsed dict.  Every branch is caught in
the source, so the process never fails. -/
theorem load_metadata_spec (d : Disk) (cur : Option ModelMetadata) :
    (d.metadataFile = FileRead.missing → load_model_metadata d cur = cur) ∧
    (d.metadataFile = FileRead.unreadable → load_model_metadata d cur = none) ∧
    (∀ md, d.metadataFile = FileRead.ok md → load_model_metadata d cur = md) := by
  refine ⟨fun h => ?_, fun h => ?_, fun md h => ?_⟩ <;>
    simp [load_model_metadata, h]

/-- Witness for load_metadata_spec at concrete disks: missing file keeps the
current value, a fresh readable file replaces it. -/
theorem load_metadata_spec_witness :
    load_model_metadata dMissing (some sampleMeta) = some sampleMeta ∧
    load_model_metadata dNewMeta (some sampleMeta) =
      some ⟨some "new", some "2.0", none, none, none, some 8⟩ :=
  ⟨(load_metadata_spec dMissing (some sampleMeta)).1 rfl,
   (load_metadata_spec dNewMeta (some sampleMeta)).2.2 _ rfl⟩

end Aurora

namespace Aurora

/-- C5 counterexample: the claim says every failure response increments the
error counter, but GET /model/info with empty metadata responds 404 while
touching no state at all — the error counter is unchanged. -/
theorem model_info_404_counter_unchanged :
    (model_info sNoMeta).2 = HResp.failure 404 ∧
    (model_info sNoMeta).1.errorCount = sNoMeta.errorCount := by
  exact ⟨rfl, rfl⟩

/-- C5 amended: only the /predict handler increments the error-status
request counter on failure (and does so by exactly 1); the 401
authentication failure, the 404 and 500 from /model/info, and the 500 from
/model/reload all respond without touching the error counter. -/
theorem error_counter_only_predict (s : AppState) (d : Disk)
    (inputs : List (List Rat)) (cfg key : Option String) (c : Nat) :
    ((predict s inputs).resp.isFailure = true →
      (predict s inputs).state.errorCount = s.errorCount + 1) ∧
    (model_info s).1 = s ∧
    (reload_model d s).1.errorCount = s.errorCount ∧
    (verify_api_key cfg key = some c →
      withAuth cfg key model_info s = (s, HResp.failure c)) := by
  refine ⟨?_, ?_, ?_, fun h => ?_⟩
  · rcases hm : s.model with _ | m
    · intro _; simp [predict, hm]
    · rcases hpt : predict_try s m inputs with ⟨e | p, inv⟩ <;>
        simp [predict, hm, hpt, HResp.isFailure]
  · rcases hmd : s.metadata with _ | md
    · simp [model_info, hmd]
    · rcases hn : md.model_name with _ | n <;>
      rcases hv : md.version with _ | v <;>
      rcases ha : md.algorithm with _ | a <;>
      rcases ht : md.trained_at with _ | t <;>
        simp [model_info, hmd, hn, hv, ha, ht]
  · rcases hd : d.modelFile with _ | _ | m <;>
      rcases hm : s.model with _ | om <;>
        simp [reload_model, load_model, hd, hm]
  · simp [withAuth, h]

/-- Witness for error_counter_only_predict at concrete inputs: a failing
predict (no model) increments the counter; model_info leaves the state
unchanged; a failed reload leaves the counter unchanged; a missing key
against a configured secret yields 401 with the state untouched. -/
theorem error_counter_only_predict_witness :
    (predict sNoMeta []).state.errorCount = sNoMeta.errorCount + 1 ∧
    (model_info sNoMeta).1 = sNoMeta ∧
    (reload_model dMissing sNoMeta).1.errorCount = sNoMeta.errorCount ∧
    withAuth (some "secret") none model_info sNoMeta =
      (sNoMeta, HResp.failure 401) := by
  have h := error_counter_only_predict sNoMeta dMissing [] (some "secret") none 401
  exact ⟨h.1 rfl, h.2.1, h.2.2.1, h.2.2.2 rfl⟩

/-- C6: GET /health always responds 200 (never a failure), mutates nothing,
and its body has status "ok" exactly when a model is loaded and "degraded"
otherwise, reports the model_loaded and metadata_loaded booleans and the
model path, and carries the metadata name/version/score fields exactly when
the metadata dict is non-empty. -/
theorem health_spec (mp : String) (s : AppState) :
    ∃ b, health mp s = (s, HResp.success b) ∧
      (b.status = "ok" ↔ s.model.isSome) ∧
      (b.status = "degraded" ↔ s.model = none) ∧
      b.model_loaded = s.model.isSome ∧
      b.model_path = mp ∧
      b.metadata_loaded = s.metadata.isSome ∧
      (b.extra.isSome ↔ s.metadata.isSome) ∧
      (∀ md, s.metadata = some md →
        b.extra = some ⟨md.model_name, md.version, md.r2_score⟩) := by
  refine ⟨_, rfl, ?_, ?_, rfl, rfl, rfl, ?_, ?_⟩ <;>
    rcases hm : s.model with _ | m <;>
      rcases hmd : s.metadata with _ | md <;> simp [hm, hmd]

/-- Witness for health_spec at a concrete path and fully loaded state. -/
theorem health_spec_witness :
    ∃ b, health "/models/california-housing/latest/model.pkl" sFull =
        (sFull, HResp.success b) ∧
      (b.status = "ok" ↔ sFull.model.isSome) ∧
      (b.status = "degraded" ↔ sFull.model = none) ∧
      b.model_loaded = sFull.model.isSome ∧
      b.model_path = "/models/california-housing/latest/model.pkl" ∧
      b.metadata_loaded = sFull.metadata.isSome ∧
      (b.extra.isSome ↔ sFull.metadata.isSome) ∧
      (∀ md, sFull.metadata = some md →
        b.extra = some ⟨md.model_name, md.version, md.r2_score⟩) :=
  health_spec "/models/california-housing/latest/model.pkl" sFull

/-- C7 counterexample: the claim says absent metadata fields default to
empty/zero in the /model/info response, but with a non-empty metadata dict
whose only key is model_name, the pydantic ModelInfo constructor receives
None for the non-nullable version/algorithm/trained_at fields and raises a
ValidationError, so the request ends in a 500 error rather than a typed
object with defaulted fields. -/
theorem model_info_missing_str_field_500 :
    sPartialMeta.metadata.isSome = true ∧
    (model_info sPartialMeta).2 = HResp.failure 500 := by
  exact ⟨rfl, rfl⟩

/-- C7 amended: with metadata absent, /model/info (after auth) fails 404;
with metadata present and the four string-typed fields (model_name,
version, algorithm, trained_at) all present, it returns the typed object
where only the numeric fields default — r2_score to 0 and features
(feature_count) to 0; if any string-typed field is absent, the pydantic
validation of the typed object fails and the request errors (500) instead
of defaulting. -/
theorem model_info_spec (s : AppState) :
    (s.metadata = none → model_info s = (s, HResp.failure 404)) ∧
    (∀ md n v a t, s.metadata = some md → md.model_name = some n →
      md.version = some v → md.algorithm = some a → md.trained_at = some t →
      model_info s =
        (s, HResp.success ⟨n, v, a, md.r2_score.getD 0, t,
          md.feature_count.getD 0⟩)) ∧
    (∀ md, s.metadata = some md →
      (md.model_name = none ∨ md.version = none ∨ md.algorithm = none ∨
        md.trained_at = none) →
      model_info s = (s, HResp.failure 500)) := by
  refine ⟨fun h => ?_, fun md n v a t hmd hn hv ha ht => ?_, fun md hmd hne => ?_⟩
  · simp [model_info, h]
  · simp [model_info, hmd, hn, hv, ha, ht]
  · rcases hn : md.model_name with _ | n <;>
    rcases hv : md.version with _ | v <;>
    rcases ha : md.algorithm with _ | a <;>
    rcases ht : md.trained_at with _ | t <;>
      simp_all [model_info]

/-- Witness for model_info_spec: the 404 case with empty metadata, the
typed-object case with full metadata, and the validation-failure case with
a partially populated dict. -/
theorem model_info_spec_witness :
    model_info sNoMeta = (sNoMeta, HResp.failure 404) ∧
    model_info sFull =
      (sFull, HResp.success ⟨"california-housing", "1.0", "linear",
        sampleMeta.r2_score.getD 0, "2024-01-01",
        sampleMeta.feature_count.getD 0⟩) ∧
    model_info sPartialMeta = (sPartialMeta, HResp.failure 500) :=
  ⟨(model_info_spec sNoMeta).1 rfl,
   (model_info_spec sFull).2.1 sampleMeta "california-housing" "1.0" "linear"
     "2024-01-01" rfl rfl rfl rfl rfl,
   (model_info_spec sPartialMeta).2.2 ⟨some "m", none, none, none, none, none⟩
     rfl (Or.inr (Or.inl rfl))⟩

end Aurora
